import Mathlib

/-!
Shallow embedding of the "Pickin' Sticks" game logic (`src/main.rs`).

Floating-point (`f32`) quantities are modelled as rationals (`ℚ`): every
operation the game performs on them (additions of decimal constants,
multiplications, comparisons, clamping) is exact arithmetic at the scales
involved. The Bevy ECS scheduler, renderer and asset pipeline are out of
scope; each game system is embedded as a pure function on an explicit
state, with the engine-supplied inputs (elapsed time, pressed keys, random
draws, timer completion) passed as arguments.
-/

namespace PickinSticks

/-- Window width constant `WINDOW_WIDTH` from `main.rs`. -/
def WINDOW_WIDTH : ℚ := 960

/-- Window height constant `WINDOW_HEIGHT` from `main.rs`. -/
def WINDOW_HEIGHT : ℚ := 540

/-- 2D vector with rational coordinates (models Bevy `Vec2`). -/
structure Vec2 where
  x : ℚ
  y : ℚ
deriving DecidableEq, Repr

/-- The `PlayerDirection` component enum from `main.rs`. -/
inductive PlayerDirection where
  | Stationary
  | Up
  | Down
  | Left
  | Right
deriving DecidableEq, Repr

/-! ## Resources (`setup_resources`) -/

/-- Initial score inserted by `setup_resources`: `Score(0)`. -/
def initialScore : Int := 0

/-- Initial speed inserted by `setup_resources`: `Speed(150.0)`. -/
def initialSpeed : ℚ := 150

/-- The rank threshold table built in `setup_resources`:
`{1 -> "Weak", 5 -> "Decent", 10 -> "Ok"}` (association list; the Rust
code stores it in a `HashMap` with these three unique keys). -/
def rankThresholds : List (Int × String) := [(1, "Weak"), (5, "Decent"), (10, "Ok")]

/-- Initial `Rank.current` inserted by `setup_resources`: `"Weak"`. -/
def initialRankCurrent : String := "Weak"

/-! ## Rank recomputation (`update_rank_system`) -/

/-- Rust `Iterator::max_by_key` on the threshold key: returns `none` on an
empty list, otherwise an element with the maximal key (the latest one on
ties, as `max_by_key` does). -/
def maxByThreshold : List (Int × String) → Option (Int × String)
  | [] => none
  | p :: ps => some (ps.foldl (fun acc q => if acc.1 ≤ q.1 then q else acc) p)

/-- The new rank computed by `update_rank_system` from the current score:
filter the threshold table to thresholds not exceeding the score, take the
entry with the greatest threshold, and fall back to `"Weak"` when no
threshold applies. -/
def update_rank (score : Int) : String :=
  (Option.map Prod.snd (maxByThreshold (rankThresholds.filter (fun p => decide (p.1 ≤ score))))).getD "Weak"

/-- Modelled from the spec: the label of the highest threshold in the fixed
table `{1 -> "Weak", 5 -> "Decent", 10 -> "Ok"}` that does not exceed the
score. Stated as the spec words it, independently of the source's
iterator pipeline, for comparison with `update_rank`. -/
def specRankLabel (score : Int) : String :=
  if 10 ≤ score then "Ok"
  else if 5 ≤ score then "Decent"
  else "Weak"

/-! ## Score and speed update (`update_score_and_speed_system`) -/

/-- Embeds `update_score_and_speed_system` acting on the score/speed pair: when at
least one collision event is pending the whole batch is cleared, the score
is incremented by 1 and the speed by 10. `events` is the number of pending
`CollisionEvent`s. -/
def update_score_and_speed (events : Nat) (score : Int) (speed : ℚ) : Int × ℚ :=
  if events ≠ 0 then (score + 1, speed + 10) else (score, speed)

/-- One processed pickup: a frame of `update_score_and_speed_system` with
exactly one pending collision event. -/
def pickup (p : Int × ℚ) : Int × ℚ :=
  update_score_and_speed 1 p.1 p.2

/-! ## Collision geometry (`is_colliding`, Bevy `BoundingCircle` vs `Aabb2d`) -/

/-- Axis-aligned bounding box, models Bevy `Aabb2d` (min/max corners). -/
structure Aabb2d where
  min : Vec2
  max : Vec2
deriving DecidableEq, Repr

/-- Embeds `Aabb2d::new(center, half_size)`: the box from `center - half_size`
to `center + half_size`. -/
def Aabb2d.new (center halfSize : Vec2) : Aabb2d :=
  ⟨⟨center.x - halfSize.x, center.y - halfSize.y⟩,
   ⟨center.x + halfSize.x, center.y + halfSize.y⟩⟩

/-- Bounding circle, models Bevy `BoundingCircle` (center and radius). -/
structure BoundingCircle where
  center : Vec2
  radius : ℚ
deriving DecidableEq, Repr

/-- Scalar clamp, as used by `Vec2::clamp` componentwise. -/
def clampQ (v lo hi : ℚ) : ℚ := max lo (min v hi)

/-- Embeds `Aabb2d::closest_point`: clamp the point into the box componentwise. -/
def Aabb2d.closestPoint (b : Aabb2d) (p : Vec2) : Vec2 :=
  ⟨clampQ p.x b.min.x b.max.x, clampQ p.y b.min.y b.max.y⟩

/-- Squared Euclidean distance between two points. -/
def distSq (p q : Vec2) : ℚ :=
  (p.x - q.x) ^ 2 + (p.y - q.y) ^ 2

/-- Bevy's `BoundingCircle::intersects(&Aabb2d)`: the squared distance from
the circle's center to the box's closest point is at most the squared
radius. -/
def BoundingCircle.intersectsAabb (c : BoundingCircle) (b : Aabb2d) : Bool :=
  decide (distSq (b.closestPoint c.center) c.center ≤ c.radius * c.radius)

/-- Embeds `is_colliding` from `main.rs`: returns `false` when the stick's
bounding circle does not intersect the player's bounding box, `true`
otherwise. -/
def is_colliding (stickBoundingCircle : BoundingCircle) (playerBoundingBox : Aabb2d) : Bool :=
  if ¬ stickBoundingCircle.intersectsAabb playerBoundingBox then false else true

/-- The exact check `player_collision` runs for one stick: circle of radius
24 at the stick's 2D position against `Aabb2d::new(player 2D position,
player scale / 2)`. -/
def collisionCheck (playerTranslation playerScale stickTranslation : Vec2) : Bool :=
  is_colliding ⟨stickTranslation, 24⟩
    (Aabb2d.new playerTranslation ⟨playerScale.x / 2, playerScale.y / 2⟩)

/-- Membership of a point in a box (both borders included). -/
def inAabb (p : Vec2) (b : Aabb2d) : Prop :=
  b.min.x ≤ p.x ∧ p.x ≤ b.max.x ∧ b.min.y ≤ p.y ∧ p.y ≤ b.max.y

/-! ## Movement (`player_movement`) -/

/-- The position delta `player_movement` applies to a single entity:
`cur_speed = speed * dt` added to / subtracted from one coordinate
according to the facing direction, the other coordinate untouched. -/
def moveStep (dt speed : ℚ) (e : PlayerDirection × Vec2) : PlayerDirection × Vec2 :=
  let cur := speed * dt
  match e.1 with
  | .Up => (e.1, ⟨e.2.x, e.2.y + cur⟩)
  | .Down => (e.1, ⟨e.2.x, e.2.y - cur⟩)
  | .Right => (e.1, ⟨e.2.x + cur, e.2.y⟩)
  | .Left => (e.1, ⟨e.2.x - cur, e.2.y⟩)
  | .Stationary => e

/-- Embeds `player_movement` over the entities matched by its query, in iteration
order. The wildcard arm of the `match` is `return`, which exits the whole
function: entities after the first `Stationary` one are left untouched. -/
def player_movement (dt speed : ℚ) : List (PlayerDirection × Vec2) → List (PlayerDirection × Vec2)
  | [] => []
  | (dir, t) :: rest =>
    match dir with
    | .Stationary => (dir, t) :: rest
    | d => moveStep dt speed (d, t) :: player_movement dt speed rest

/-! ## Screen wrapping (`player_screen_wrapping`) -/

/-- Embeds `player_screen_wrapping` acting on the player's 2D translation:
crossing the left/right window edge teleports near the opposite edge, and
likewise vertically with a 60-unit UI margin. -/
def player_screen_wrapping (p : Vec2) : Vec2 :=
  let x :=
    if p.x < -WINDOW_WIDTH / 2 then WINDOW_WIDTH / 2 - 24
    else if WINDOW_WIDTH / 2 < p.x then -(WINDOW_WIDTH / 2) + 24
    else p.x
  let y :=
    if p.y < -WINDOW_HEIGHT / 2 + 60 then WINDOW_HEIGHT / 2 - 60 - 24
    else if WINDOW_HEIGHT / 2 - 60 < p.y then -(WINDOW_HEIGHT / 2) + 60 + 24
    else p.y
  ⟨x, y⟩

/-! ## Stick spawning (`spawn_new_stick`) -/

/-- Lower end of the `gen_range` interval for the new stick's x. -/
def stickXLow : ℚ := -WINDOW_WIDTH / 2 + 16

/-- Upper end of the `gen_range` interval for the new stick's x. -/
def stickXHigh : ℚ := WINDOW_WIDTH / 2 - 16

/-- Lower end of the `gen_range` interval for the new stick's y. -/
def stickYLow : ℚ := -WINDOW_HEIGHT / 2 + 16 + 60

/-- Upper end of the `gen_range` interval for the new stick's y. -/
def stickYHigh : ℚ := WINDOW_HEIGHT / 2 - 16 - 60

/-- Embeds `Rng::gen_range(low..high)` on floats samples the half-open interval
`[low, high)`: any such value, the lower bound included, can be produced. -/
def genRangeProduces (low high r : ℚ) : Prop :=
  low ≤ r ∧ r < high

/-- Embeds `spawn_new_stick`'s placement of the new stick, given the two values
drawn from the random generator: the translation is exactly
`(random_x, random_y)` (z fixed at 1.0, not modelled). -/
def spawn_new_stick (random_x random_y : ℚ) : Vec2 :=
  ⟨random_x, random_y⟩

/-! ## Animation (`player_animation`, `setup`) -/

/-- Embeds `AnimationIndices.first` for the player, set in `setup`. -/
def playerAnimFirst : Nat := 1

/-- Embeds `AnimationIndices.last` for the player, set in `setup`. -/
def playerAnimLast : Nat := 6

/-- The player's `AnimationTimer` duration in seconds, set in `setup`
(`Timer::from_seconds(0.1, TimerMode::Repeating)`). -/
def animationTimerSeconds : ℚ := 1 / 10

/-- The index update `player_animation` performs when the timer has just
finished: wrap from `last` back to `first`, otherwise advance by one. -/
def animStep (first last idx : Nat) : Nat :=
  if idx = last then first else idx + 1

/-! ## Whole-frame state model

The single player entity spawned by `setup` carries a `PlayerDirection`,
a sprite (its `flip_x` flag), a `Transform` (translation and scale) and a
`TextureAtlas` index; sticks carry an entity id and a translation. The
engine-supplied per-frame inputs (pressed keys, elapsed time, timer
completion, random draws, the id of a freshly spawned entity) are passed
explicitly. -/

/-- The player entity's mutable components. -/
structure PlayerState where
  dir : PlayerDirection
  flipX : Bool
  translation : Vec2
  scale : Vec2
  animIndex : Nat
deriving DecidableEq, Repr

/-- The whole mutable game state a frame acts on: the three resources, the
player entity if one exists (`get_single` fails otherwise), the live stick
entities, and the pending `CollisionEvent` count. -/
structure GameState where
  score : Int
  speed : ℚ
  rankCurrent : String
  player : Option PlayerState
  sticks : List (Nat × Vec2)
  pendingEvents : Nat
deriving DecidableEq, Repr

/-- The WASD key states polled by `player_input`. -/
structure Keys where
  w : Bool
  s : Bool
  a : Bool
  d : Bool
deriving DecidableEq, Repr

/-- Embeds `player_input`: with no player entity it returns immediately;
otherwise each pressed key among W, S, A, D overwrites the direction in
that order (A and D also set the sprite's `flip_x`). -/
def player_input (kb : Keys) (st : GameState) : GameState :=
  match st.player with
  | none => st
  | some ps =>
    let ps := if kb.w then { ps with dir := .Up } else ps
    let ps := if kb.s then { ps with dir := .Down } else ps
    let ps := if kb.a then { ps with dir := .Left, flipX := true } else ps
    let ps := if kb.d then { ps with dir := .Right, flipX := false } else ps
    { st with player := some ps }

/-- Embeds `player_animation` on the state: when the repeating timer just
finished this frame, advance the player's atlas index with `animStep`. -/
def player_animation (timerJustFinished : Bool) (st : GameState) : GameState :=
  match st.player with
  | none => st
  | some ps =>
    if timerJustFinished then
      { st with player := some { ps with animIndex := animStep playerAnimFirst playerAnimLast ps.animIndex } }
    else st

/-- Embeds `player_movement` on the state: the player is the only entity with a
`PlayerDirection`, so the query yields just it. -/
def player_movement_sys (dt : ℚ) (st : GameState) : GameState :=
  match st.player with
  | none => st
  | some ps =>
    match player_movement dt st.speed [(ps.dir, ps.translation)] with
    | [(_, t)] => { st with player := some { ps with translation := t } }
    | _ => st

/-- Embeds `player_screen_wrapping` on the state: with no player entity it
returns immediately, otherwise it wraps the player's translation. -/
def player_screen_wrapping_sys (st : GameState) : GameState :=
  match st.player with
  | none => st
  | some ps => { st with player := some { ps with translation := player_screen_wrapping ps.translation } }

/-- Embeds `player_collision`: with no player entity it returns immediately;
otherwise, for every stick whose circle hits the player's box, a
`CollisionEvent` is sent and that stick is despawned. -/
def player_collision (st : GameState) : GameState :=
  match st.player with
  | none => st
  | some ps =>
    let hits := st.sticks.filter (fun s => collisionCheck ps.translation ps.scale s.2)
    { st with
      sticks := st.sticks.filter (fun s => ! collisionCheck ps.translation ps.scale s.2),
      pendingEvents := st.pendingEvents + hits.length }

/-- Embeds `update_score_and_speed_system` on the state: when any collision
events are pending, clear them all, bump score and speed once, and spawn
one new stick (at the position drawn from the generator, with a fresh
entity id). -/
def update_score_and_speed_sys (random_x random_y : ℚ) (freshId : Nat) (st : GameState) : GameState :=
  if st.pendingEvents ≠ 0 then
    { st with
      pendingEvents := 0
      score := st.score + 1
      speed := st.speed + 10
      sticks := st.sticks ++ [(freshId, spawn_new_stick random_x random_y)] }
  else st

/-- Embeds `update_rank_system` on the state: recompute the rank from the current
score, writing it back only when it differs (the written value is the
same either way). -/
def update_rank_sys (st : GameState) : GameState :=
  let newRank := update_rank st.score
  if newRank ≠ st.rankCurrent then { st with rankCurrent := newRank } else st

/-- The engine-supplied inputs of one frame. -/
structure FrameInput where
  kb : Keys
  dt : ℚ
  timerJustFinished : Bool
  random_x : ℚ
  random_y : ℚ
  freshId : Nat
deriving DecidableEq, Repr

/-- One `Update` pass: the registered systems, in their listed order
(`player_input`, `player_animation`, `player_movement`,
`player_screen_wrapping`, `player_collision`, then the score/speed and
rank updates). -/
def frame (inp : FrameInput) (st : GameState) : GameState :=
  update_rank_sys
    (update_score_and_speed_sys inp.random_x inp.random_y inp.freshId
      (player_collision
        (player_screen_wrapping_sys
          (player_movement_sys inp.dt
            (player_animation inp.timerJustFinished
              (player_input inp.kb st))))))

/-! ## Theorems -/

/-- C1: Score starts at 0 and Speed starts at 150.0; each processed pickup
increments Score by exactly 1 and Speed by exactly 10.0, so after `n`
pickups Score is `n` and Speed is `150 + 10 * n`. -/
theorem score_and_speed_after_n_pickups (n : Nat) :
    initialScore = 0 ∧ initialSpeed = 150 ∧
      pickup^[n] (initialScore, initialSpeed) = ((n : Int), 150 + 10 * (n : ℚ)) := by
  refine ⟨rfl, rfl, ?_⟩
  induction n with
  | zero => simp [initialScore, initialSpeed]
  | succ k ih =>
    rw [Function.iterate_succ_apply', ih]
    simp only [pickup, update_score_and_speed, if_pos (one_ne_zero)]
    push_cast
    simp only [Prod.mk.injEq]
    refine ⟨by trivial, by ring⟩

/-- C2: for every score of at least 1, the rank computed by
`update_rank_system` is the label of the highest threshold in the table
`{1 -> Weak, 5 -> Decent, 10 -> Ok}` not exceeding the score, and the
system rewrites `Rank.current` every frame from the current score alone. -/
theorem update_rank_matches_highest_threshold (score : Int) (st : GameState)
    (h : 1 ≤ score) :
    update_rank score = specRankLabel score ∧
      (update_rank_sys st).rankCurrent = update_rank st.score := by
  constructor
  · have d1 : decide ((1 : Int) ≤ score) = true := decide_eq_true h
    by_cases h10 : 10 ≤ score
    · have d5 : decide ((5 : Int) ≤ score) = true := decide_eq_true (by omega)
      have d10 : decide ((10 : Int) ≤ score) = true := decide_eq_true h10
      simp [update_rank, rankThresholds, maxByThreshold, specRankLabel, d1, d5, d10, h10]
    · by_cases h5 : 5 ≤ score
      · have d5 : decide ((5 : Int) ≤ score) = true := decide_eq_true h5
        have d10 : decide ((10 : Int) ≤ score) = false := decide_eq_false h10
        simp [update_rank, rankThresholds, maxByThreshold, specRankLabel, d1, d5, d10, h5, h10]
      · have d5 : decide ((5 : Int) ≤ score) = false := decide_eq_false h5
        have d10 : decide ((10 : Int) ≤ score) = false := decide_eq_false h10
        simp [update_rank, rankThresholds, maxByThreshold, specRankLabel, d1, d5, d10, h5, h10]
  · by_cases hne : update_rank st.score ≠ st.rankCurrent
    · simp [update_rank_sys, hne]
    · simp [update_rank_sys, hne]
      exact (not_ne_iff.mp hne).symm

/-- Witness for C2: at score 7 with a concrete state the rank is the
highest applicable label and the frame rewrite agrees. -/
theorem update_rank_matches_highest_threshold_witness :
    (1 : Int) ≤ 7 ∧
      (update_rank 7 = specRankLabel 7 ∧
        (update_rank_sys ⟨7, 150, "Weak", none, [], 0⟩).rankCurrent =
          update_rank (GameState.score ⟨7, 150, "Weak", none, [], 0⟩)) :=
  ⟨by norm_num, update_rank_matches_highest_threshold 7 ⟨7, 150, "Weak", none, [], 0⟩ (by norm_num)⟩

/-- C8: the player's animation index, with `first = 1` and `last = 6` from
`setup` and the 0.1-second repeating timer, advances on each timer
completion to `first` when at `last` and to the successor otherwise, and
stays within `[1, 6]` after any number of completions. -/
theorem animation_index_cycles_in_range (idx : Nat)
    (h1 : playerAnimFirst ≤ idx) (h2 : idx ≤ playerAnimLast) :
    animationTimerSeconds = 1 / 10 ∧
      (idx = playerAnimLast → animStep playerAnimFirst playerAnimLast idx = playerAnimFirst) ∧
      (idx ≠ playerAnimLast → animStep playerAnimFirst playerAnimLast idx = idx + 1) ∧
      ∀ n : Nat,
        playerAnimFirst ≤ (animStep playerAnimFirst playerAnimLast)^[n] idx ∧
          (animStep playerAnimFirst playerAnimLast)^[n] idx ≤ playerAnimLast := by
  refine ⟨rfl, fun he => by simp [animStep, he], fun hne => by simp [animStep, hne], ?_⟩
  intro n
  induction n generalizing idx with
  | zero => exact ⟨h1, h2⟩
  | succ k ih =>
    rw [Function.iterate_succ_apply]
    refine ih (animStep playerAnimFirst playerAnimLast idx) ?_ ?_ <;>
      · simp only [animStep, playerAnimFirst, playerAnimLast] at *
        split <;> omega

/-- Witness for C8: starting from index 3 the properties hold concretely. -/
theorem animation_index_cycles_in_range_witness :
    playerAnimFirst ≤ 3 ∧ 3 ≤ playerAnimLast ∧
      (animationTimerSeconds = 1 / 10 ∧
        (3 = playerAnimLast → animStep playerAnimFirst playerAnimLast 3 = playerAnimFirst) ∧
        (3 ≠ playerAnimLast → animStep playerAnimFirst playerAnimLast 3 = 3 + 1) ∧
        ∀ n : Nat,
          playerAnimFirst ≤ (animStep playerAnimFirst playerAnimLast)^[n] 3 ∧
            (animStep playerAnimFirst playerAnimLast)^[n] 3 ≤ playerAnimLast) :=
  ⟨by decide, by decide, animation_index_cycles_in_range 3 (by decide) (by decide)⟩

/-- C9: whenever at least one collision event is pending, the score/speed
system consumes the whole batch: score rises by exactly 1, speed by
exactly 10, exactly one new stick is appended, and the event queue is
cleared — however many events were pending. -/
theorem collision_batch_consumed_once (st : GameState) (rx ry : ℚ) (fid : Nat)
    (h : 1 ≤ st.pendingEvents) :
    (update_score_and_speed_sys rx ry fid st).score = st.score + 1 ∧
      (update_score_and_speed_sys rx ry fid st).speed = st.speed + 10 ∧
      (update_score_and_speed_sys rx ry fid st).sticks =
        st.sticks ++ [(fid, spawn_new_stick rx ry)] ∧
      (update_score_and_speed_sys rx ry fid st).pendingEvents = 0 := by
  have hne : st.pendingEvents ≠ 0 := by omega
  simp [update_score_and_speed_sys, hne]

/-- Witness for C9: a state with three pending events still gains exactly
one point, 10 speed and one stick. -/
theorem collision_batch_consumed_once_witness :
    1 ≤ GameState.pendingEvents ⟨0, 150, "Weak", none, [], 3⟩ ∧
      ((update_score_and_speed_sys 0 0 7 ⟨0, 150, "Weak", none, [], 3⟩).score =
          GameState.score ⟨0, 150, "Weak", none, [], 3⟩ + 1 ∧
        (update_score_and_speed_sys 0 0 7 ⟨0, 150, "Weak", none, [], 3⟩).speed =
          GameState.speed ⟨0, 150, "Weak", none, [], 3⟩ + 10 ∧
        (update_score_and_speed_sys 0 0 7 ⟨0, 150, "Weak", none, [], 3⟩).sticks =
          GameState.sticks ⟨0, 150, "Weak", none, [], 3⟩ ++ [(7, spawn_new_stick 0 0)] ∧
        (update_score_and_speed_sys 0 0 7 ⟨0, 150, "Weak", none, [], 3⟩).pendingEvents = 0) :=
  ⟨by norm_num, collision_batch_consumed_once ⟨0, 150, "Weak", none, [], 3⟩ 0 0 7 (by norm_num)⟩

/-- C6: after `player_screen_wrapping` the player's x lies in
`[-WINDOW_WIDTH/2, WINDOW_WIDTH/2]` and its y in
`[-WINDOW_HEIGHT/2 + 60, WINDOW_HEIGHT/2 - 60]`, and a position already
inside those bounds is left unchanged. -/
theorem screen_wrapping_bounds_invariant (p : Vec2) :
    (-(WINDOW_WIDTH / 2) ≤ (player_screen_wrapping p).x ∧
      (player_screen_wrapping p).x ≤ WINDOW_WIDTH / 2 ∧
      -(WINDOW_HEIGHT / 2) + 60 ≤ (player_screen_wrapping p).y ∧
      (player_screen_wrapping p).y ≤ WINDOW_HEIGHT / 2 - 60) ∧
    ((-(WINDOW_WIDTH / 2) ≤ p.x ∧ p.x ≤ WINDOW_WIDTH / 2 ∧
      -(WINDOW_HEIGHT / 2) + 60 ≤ p.y ∧ p.y ≤ WINDOW_HEIGHT / 2 - 60) →
      player_screen_wrapping p = p) := by
  obtain ⟨px, py⟩ := p
  constructor
  · simp only [player_screen_wrapping, WINDOW_WIDTH, WINDOW_HEIGHT]
    norm_num
    split_ifs <;> refine ⟨?_, ?_, ?_, ?_⟩ <;> linarith
  · rintro ⟨hx1, hx2, hy1, hy2⟩
    simp only [WINDOW_WIDTH, WINDOW_HEIGHT] at hx1 hx2 hy1 hy2
    norm_num at hx1 hx2 hy1 hy2
    simp only [player_screen_wrapping, WINDOW_WIDTH, WINDOW_HEIGHT]
    norm_num
    split_ifs <;> first
      | rfl
      | exact ⟨rfl, rfl⟩
      | (exfalso; linarith)

/-- Witness for C6: at the origin the wrapped position is in bounds and
unchanged. -/
theorem screen_wrapping_bounds_invariant_witness :
    player_screen_wrapping ⟨0, 0⟩ = ⟨0, 0⟩ ∧
      (-(WINDOW_WIDTH / 2) ≤ (player_screen_wrapping ⟨0, 0⟩).x ∧
        (player_screen_wrapping ⟨0, 0⟩).x ≤ WINDOW_WIDTH / 2 ∧
        -(WINDOW_HEIGHT / 2) + 60 ≤ (player_screen_wrapping ⟨0, 0⟩).y ∧
        (player_screen_wrapping ⟨0, 0⟩).y ≤ WINDOW_HEIGHT / 2 - 60) :=
  ⟨(screen_wrapping_bounds_invariant ⟨0, 0⟩).2
      (by norm_num [WINDOW_WIDTH, WINDOW_HEIGHT]),
    (screen_wrapping_bounds_invariant ⟨0, 0⟩).1⟩

/-- C7: when no player entity exists, `player_input`,
`player_screen_wrapping` and `player_collision` each return immediately,
leaving the whole game state — score, speed, rank, every entity, the
event queue — unchanged, and despawning or spawning nothing. -/
theorem systems_skip_without_player (st : GameState) (kb : Keys)
    (h : st.player = none) :
    player_input kb st = st ∧
      player_screen_wrapping_sys st = st ∧
      player_collision st = st := by
  refine ⟨?_, ?_, ?_⟩ <;>
    simp [player_input, player_screen_wrapping_sys, player_collision, h]

/-- Witness for C7: a concrete playerless state with a live stick passes
through all three systems untouched. -/
theorem systems_skip_without_player_witness :
    GameState.player ⟨0, 150, "Weak", none, [(0, ⟨48, 0⟩)], 0⟩ = none ∧
      (player_input ⟨false, false, false, false⟩ ⟨0, 150, "Weak", none, [(0, ⟨48, 0⟩)], 0⟩ =
          ⟨0, 150, "Weak", none, [(0, ⟨48, 0⟩)], 0⟩ ∧
        player_screen_wrapping_sys ⟨0, 150, "Weak", none, [(0, ⟨48, 0⟩)], 0⟩ =
          ⟨0, 150, "Weak", none, [(0, ⟨48, 0⟩)], 0⟩ ∧
        player_collision ⟨0, 150, "Weak", none, [(0, ⟨48, 0⟩)], 0⟩ =
          ⟨0, 150, "Weak", none, [(0, ⟨48, 0⟩)], 0⟩) :=
  ⟨rfl, systems_skip_without_player ⟨0, 150, "Weak", none, [(0, ⟨48, 0⟩)], 0⟩
      ⟨false, false, false, false⟩ rfl⟩

/-- Fact: `is_colliding` returns exactly the engine's intersection test. -/
theorem is_colliding_eq (c : BoundingCircle) (b : Aabb2d) :
    is_colliding c b = c.intersectsAabb b := by
  cases hb : c.intersectsAabb b <;> simp [is_colliding, hb]

/-- Clamping a coordinate into a nonempty interval lands at least as close
to the clamped value as any point of the interval. -/
theorem clamp_sq_le (c lo hi v : ℚ) (h1 : lo ≤ v) (h2 : v ≤ hi) :
    (clampQ c lo hi - c) ^ 2 ≤ (v - c) ^ 2 := by
  have hlohi : lo ≤ hi := le_trans h1 h2
  unfold clampQ
  rcases le_or_lt lo c with hc1 | hc1
  · rcases le_or_lt c hi with hc2 | hc2
    · rw [min_eq_left hc2, max_eq_right hc1]
      simp only [sub_self]
      positivity
    · rw [min_eq_right (le_of_lt hc2), max_eq_right hlohi]
      nlinarith
  · rw [min_eq_left (le_trans (le_of_lt hc1) hlohi), max_eq_left (le_of_lt hc1)]
    nlinarith

/-- The engine's closest point of a box is at minimal squared distance
among the box's points. -/
theorem closestPoint_distSq_le (b : Aabb2d) (q p : Vec2) (hp : inAabb p b) :
    distSq (b.closestPoint q) q ≤ distSq p q := by
  obtain ⟨h1, h2, h3, h4⟩ := hp
  unfold Aabb2d.closestPoint distSq
  exact add_le_add (clamp_sq_le q.x _ _ _ h1 h2) (clamp_sq_le q.y _ _ _ h3 h4)

/-- C3: with a nonnegative player scale, the per-stick check of
`player_collision` registers a collision exactly when the closed disc of
radius 24 around the stick's position meets the axis-aligned box centred
at the player's position with half-extents half the player's scale. -/
theorem collision_iff_circle_box_intersect (pt ps st : Vec2)
    (hx : 0 ≤ ps.x) (hy : 0 ≤ ps.y) :
    collisionCheck pt ps st = true ↔
      ∃ p : Vec2, inAabb p (Aabb2d.new pt ⟨ps.x / 2, ps.y / 2⟩) ∧
        distSq p st ≤ 24 * 24 := by
  have hcol : collisionCheck pt ps st = true ↔
      distSq ((Aabb2d.new pt ⟨ps.x / 2, ps.y / 2⟩).closestPoint st) st ≤ 24 * 24 := by
    rw [collisionCheck, is_colliding_eq]
    simp [BoundingCircle.intersectsAabb]
  rw [hcol]
  constructor
  · intro h
    refine ⟨(Aabb2d.new pt ⟨ps.x / 2, ps.y / 2⟩).closestPoint st, ?_, h⟩
    have hx2 : pt.x - ps.x / 2 ≤ pt.x + ps.x / 2 := by linarith
    have hy2 : pt.y - ps.y / 2 ≤ pt.y + ps.y / 2 := by linarith
    exact ⟨le_max_left _ _, max_le hx2 (min_le_right _ _),
      le_max_left _ _, max_le hy2 (min_le_right _ _)⟩
  · rintro ⟨p, hp, hd⟩
    exact le_trans (closestPoint_distSq_le _ st p hp) hd

/-- Witness for C3: the player at the origin with scale `(2, 2)` collides
with a stick at `(1, 1)`, and a point of the box within radius exists. -/
theorem collision_iff_circle_box_intersect_witness :
    0 ≤ (Vec2.mk 2 2).x ∧ 0 ≤ (Vec2.mk 2 2).y ∧
      (collisionCheck ⟨0, 0⟩ ⟨2, 2⟩ ⟨1, 1⟩ = true ↔
        ∃ p : Vec2,
          inAabb p (Aabb2d.new ⟨0, 0⟩ ⟨(Vec2.mk 2 2).x / 2, (Vec2.mk 2 2).y / 2⟩) ∧
            distSq p ⟨1, 1⟩ ≤ 24 * 24) :=
  ⟨by norm_num, by norm_num,
    collision_iff_circle_box_intersect ⟨0, 0⟩ ⟨2, 2⟩ ⟨1, 1⟩ (by norm_num) (by norm_num)⟩

/-- Counterexample to C4 as stated: `gen_range(low..high)` on floats can
produce the lower bound itself, and at that draw the new stick's x equals
`-WINDOW_WIDTH/2 + 16`, which is not strictly inside the claimed open
interval. -/
theorem spawn_lower_endpoint_attainable :
    genRangeProduces stickXLow stickXHigh stickXLow ∧
      genRangeProduces stickYLow stickYHigh 0 ∧
      (spawn_new_stick stickXLow 0).x = stickXLow ∧
      ¬ (-WINDOW_WIDTH / 2 + 16 < (spawn_new_stick stickXLow 0).x) := by
  refine ⟨⟨le_refl _, ?_⟩, ⟨?_, ?_⟩, rfl, ?_⟩ <;>
    norm_num [stickXLow, stickXHigh, stickYLow, stickYHigh,
      WINDOW_WIDTH, WINDOW_HEIGHT, spawn_new_stick]

/-- C4 as amended: on every pickup the contacted stick is despawned, and
the new stick's position lies in the half-open playable box:
`x ∈ [-WINDOW_WIDTH/2 + 16, WINDOW_WIDTH/2 - 16)` and
`y ∈ [-WINDOW_HEIGHT/2 + 76, WINDOW_HEIGHT/2 - 76)` — the lower bounds
are attainable — for every value the random generator can produce. -/
theorem pickup_despawns_and_spawns_in_half_open_area
    (st : GameState) (ps : PlayerState) (rx ry : ℚ)
    (hp : st.player = some ps)
    (hrx : genRangeProduces stickXLow stickXHigh rx)
    (hry : genRangeProduces stickYLow stickYHigh ry) :
    (∀ s ∈ st.sticks, collisionCheck ps.translation ps.scale s.2 = true →
        s ∉ (player_collision st).sticks) ∧
      (stickXLow ≤ (spawn_new_stick rx ry).x ∧ (spawn_new_stick rx ry).x < stickXHigh ∧
        stickYLow ≤ (spawn_new_stick rx ry).y ∧ (spawn_new_stick rx ry).y < stickYHigh) ∧
      (stickXLow = -WINDOW_WIDTH / 2 + 16 ∧ stickXHigh = WINDOW_WIDTH / 2 - 16 ∧
        stickYLow = -WINDOW_HEIGHT / 2 + 76 ∧ stickYHigh = WINDOW_HEIGHT / 2 - 76) := by
  obtain ⟨hrx1, hrx2⟩ := hrx
  obtain ⟨hry1, hry2⟩ := hry
  refine ⟨?_, ⟨hrx1, hrx2, hry1, hry2⟩, ?_⟩
  · intro s hs hc
    simp [player_collision, hp, List.mem_filter, hc]
  · norm_num [stickXLow, stickXHigh, stickYLow, stickYHigh, WINDOW_WIDTH, WINDOW_HEIGHT]

/-- Witness for the amended C4: a concrete colliding stick is despawned
and the spawn position for the draws `(0, 0)` is inside the half-open
box. -/
theorem pickup_despawns_and_spawns_in_half_open_area_witness :
    GameState.player
        ⟨0, 150, "Weak", some ⟨PlayerDirection.Up, false, ⟨0, 0⟩, ⟨2, 2⟩, 1⟩, [(5, ⟨1, 1⟩)], 0⟩ =
      some ⟨PlayerDirection.Up, false, ⟨0, 0⟩, ⟨2, 2⟩, 1⟩ ∧
    genRangeProduces stickXLow stickXHigh 0 ∧
    genRangeProduces stickYLow stickYHigh 0 ∧
    ((∀ s ∈ GameState.sticks
          ⟨0, 150, "Weak", some ⟨PlayerDirection.Up, false, ⟨0, 0⟩, ⟨2, 2⟩, 1⟩, [(5, ⟨1, 1⟩)], 0⟩,
        collisionCheck (PlayerState.translation ⟨PlayerDirection.Up, false, ⟨0, 0⟩, ⟨2, 2⟩, 1⟩)
            (PlayerState.scale ⟨PlayerDirection.Up, false, ⟨0, 0⟩, ⟨2, 2⟩, 1⟩) s.2 = true →
          s ∉ (player_collision
              ⟨0, 150, "Weak", some ⟨PlayerDirection.Up, false, ⟨0, 0⟩, ⟨2, 2⟩, 1⟩, [(5, ⟨1, 1⟩)], 0⟩).sticks) ∧
      (stickXLow ≤ (spawn_new_stick 0 0).x ∧ (spawn_new_stick 0 0).x < stickXHigh ∧
        stickYLow ≤ (spawn_new_stick 0 0).y ∧ (spawn_new_stick 0 0).y < stickYHigh) ∧
      (stickXLow = -WINDOW_WIDTH / 2 + 16 ∧ stickXHigh = WINDOW_WIDTH / 2 - 16 ∧
        stickYLow = -WINDOW_HEIGHT / 2 + 76 ∧ stickYHigh = WINDOW_HEIGHT / 2 - 76)) :=
  ⟨rfl,
    by norm_num [genRangeProduces, stickXLow, stickXHigh, WINDOW_WIDTH],
    by norm_num [genRangeProduces, stickYLow, stickYHigh, WINDOW_HEIGHT],
    pickup_despawns_and_spawns_in_half_open_area
      ⟨0, 150, "Weak", some ⟨PlayerDirection.Up, false, ⟨0, 0⟩, ⟨2, 2⟩, 1⟩, [(5, ⟨1, 1⟩)], 0⟩
      ⟨PlayerDirection.Up, false, ⟨0, 0⟩, ⟨2, 2⟩, 1⟩ 0 0 rfl
      (by norm_num [genRangeProduces, stickXLow, stickXHigh, WINDOW_WIDTH])
      (by norm_num [genRangeProduces, stickYLow, stickYHigh, WINDOW_HEIGHT])⟩

/-- Counterexample to C5 as stated: with a `Stationary` entity first in
iteration order, the following `Up` entity is not moved at all — the
wildcard arm of the `match` is `return`, which exits the whole loop — so
`Up` does not add `Speed * dt` to its y there. -/
theorem movement_stationary_aborts_loop :
    player_movement 1 150
        [(PlayerDirection.Stationary, ⟨0, 0⟩), (PlayerDirection.Up, ⟨0, 0⟩)] =
      [(PlayerDirection.Stationary, ⟨0, 0⟩), (PlayerDirection.Up, ⟨0, 0⟩)] ∧
    (Vec2.mk 0 0) ≠ ⟨0, 0 + 150 * 1⟩ := by
  constructor
  · rfl
  · intro hcontra
    have hy := congrArg Vec2.y hcontra
    norm_num at hy

/-- C5 as amended: the movement update processes direction-bearing
entities in iteration order only up to the first `Stationary` one; each
entity strictly before it gets `Speed * dt` applied to the coordinate its
direction selects (Up adds to y, Down subtracts from y, Right adds to x,
Left subtracts from x) with the orthogonal coordinate unchanged, while
the first `Stationary` entity and everything after it keep their
positions. With a single direction-bearing entity — the game's player —
the claimed per-direction mapping holds as stated. -/
theorem movement_maps_direction_until_first_stationary (dt speed : ℚ) (p : Vec2)
    (l : List (PlayerDirection × Vec2)) :
    moveStep dt speed (PlayerDirection.Up, p) =
        (PlayerDirection.Up, ⟨p.x, p.y + speed * dt⟩) ∧
      moveStep dt speed (PlayerDirection.Down, p) =
        (PlayerDirection.Down, ⟨p.x, p.y - speed * dt⟩) ∧
      moveStep dt speed (PlayerDirection.Right, p) =
        (PlayerDirection.Right, ⟨p.x + speed * dt, p.y⟩) ∧
      moveStep dt speed (PlayerDirection.Left, p) =
        (PlayerDirection.Left, ⟨p.x - speed * dt, p.y⟩) ∧
      moveStep dt speed (PlayerDirection.Stationary, p) = (PlayerDirection.Stationary, p) ∧
      player_movement dt speed l =
        (l.takeWhile (fun e => decide (e.1 ≠ PlayerDirection.Stationary))).map
            (moveStep dt speed) ++
          l.dropWhile (fun e => decide (e.1 ≠ PlayerDirection.Stationary)) := by
  refine ⟨rfl, rfl, rfl, rfl, rfl, ?_⟩
  induction l with
  | nil => rfl
  | cons e rest ih =>
    obtain ⟨dir, t⟩ := e
    cases dir <;> simp [player_movement, List.takeWhile_cons, List.dropWhile_cons, ih]

/-- Fact: `player_collision` never touches the player entity. -/
theorem player_collision_keeps_player (st : GameState) :
    (player_collision st).player = st.player := by
  cases h : st.player <;> simp [player_collision, h]

/-- Fact: `update_score_and_speed_system` never touches the player entity. -/
theorem update_score_and_speed_sys_keeps_player (rx ry : ℚ) (fid : Nat) (st : GameState) :
    (update_score_and_speed_sys rx ry fid st).player = st.player := by
  unfold update_score_and_speed_sys
  split <;> rfl

/-- Fact: `update_rank_system` never touches the player entity. -/
theorem update_rank_sys_keeps_player (st : GameState) :
    (update_rank_sys st).player = st.player := by
  by_cases h : update_rank st.score ≠ st.rankCurrent <;> simp [update_rank_sys, h]

/-- Fact: `player_animation` keeps the player's facing direction. -/
theorem player_animation_keeps_dir (tf : Bool) (st : GameState) (ps : PlayerState)
    (hp : st.player = some ps) :
    ∃ ps', (player_animation tf st).player = some ps' ∧ ps'.dir = ps.dir := by
  cases tf
  · exact ⟨ps, by simp [player_animation, hp], rfl⟩
  · exact ⟨{ ps with animIndex := animStep playerAnimFirst playerAnimLast ps.animIndex },
      by simp [player_animation, hp], rfl⟩

/-- Fact: `player_movement` keeps the player's facing direction. -/
theorem player_movement_sys_keeps_dir (dt : ℚ) (st : GameState) (ps : PlayerState)
    (hp : st.player = some ps) :
    ∃ ps', (player_movement_sys dt st).player = some ps' ∧ ps'.dir = ps.dir := by
  cases hd : ps.dir <;>
    simp [player_movement_sys, hp, player_movement, moveStep, hd]

/-- Fact: `player_screen_wrapping` keeps the player's facing direction. -/
theorem player_screen_wrapping_sys_keeps_dir (st : GameState) (ps : PlayerState)
    (hp : st.player = some ps) :
    ∃ ps', (player_screen_wrapping_sys st).player = some ps' ∧ ps'.dir = ps.dir :=
  ⟨{ ps with translation := player_screen_wrapping ps.translation },
    by simp [player_screen_wrapping_sys, hp], rfl⟩

/-- Fact: `player_input` only ever assigns the four movement directions: a
direction that is not `Stationary` stays so. -/
theorem player_input_keeps_moving (kb : Keys) (st : GameState) (ps : PlayerState)
    (hp : st.player = some ps) (hd : ps.dir ≠ PlayerDirection.Stationary) :
    ∃ ps', (player_input kb st).player = some ps' ∧
      ps'.dir ≠ PlayerDirection.Stationary := by
  obtain ⟨w, s, a, d⟩ := kb
  cases w <;> cases s <;> cases a <;> cases d <;> simp [player_input, hp, hd]

/-- One whole frame preserves a moving facing direction. -/
theorem frame_preserves_moving (inp : FrameInput) (st : GameState) (ps : PlayerState)
    (hp : st.player = some ps) (hd : ps.dir ≠ PlayerDirection.Stationary) :
    ∃ ps', (frame inp st).player = some ps' ∧
      ps'.dir ≠ PlayerDirection.Stationary := by
  obtain ⟨ps1, h1, hd1⟩ := player_input_keeps_moving inp.kb st ps hp hd
  obtain ⟨ps2, h2, hd2⟩ := player_animation_keeps_dir inp.timerJustFinished _ ps1 h1
  obtain ⟨ps3, h3, hd3⟩ := player_movement_sys_keeps_dir inp.dt _ ps2 h2
  obtain ⟨ps4, h4, hd4⟩ := player_screen_wrapping_sys_keeps_dir _ ps3 h3
  refine ⟨ps4, ?_, ?_⟩
  · unfold frame
    rw [update_rank_sys_keeps_player, update_score_and_speed_sys_keeps_player,
      player_collision_keeps_player, h4]
  · rw [hd4, hd3, hd2]
    exact hd1

/-- C10: once the player's facing direction is one of the four movement
directions, it never becomes `Stationary` again over any sequence of
frames with any inputs — the input step only ever assigns movement
directions and no other system writes the direction. -/
theorem direction_never_stationary_again (inputs : List FrameInput)
    (st : GameState) (ps : PlayerState)
    (hp : st.player = some ps) (hd : ps.dir ≠ PlayerDirection.Stationary) :
    ∃ ps', (inputs.foldl (fun s i => frame i s) st).player = some ps' ∧
      ps'.dir ≠ PlayerDirection.Stationary := by
  induction inputs generalizing st ps with
  | nil => exact ⟨ps, hp, hd⟩
  | cons i rest ih =>
    obtain ⟨ps1, h1, hd1⟩ := frame_preserves_moving i st ps hp hd
    exact ih (frame i st) ps1 h1 hd1

/-- Witness for C10: a player moving up stays non-stationary across a
concrete keyless frame. -/
theorem direction_never_stationary_again_witness :
    GameState.player
        ⟨0, 150, "Weak", some ⟨PlayerDirection.Up, false, ⟨0, 0⟩, ⟨2, 2⟩, 1⟩, [(0, ⟨48, 0⟩)], 0⟩ =
      some ⟨PlayerDirection.Up, false, ⟨0, 0⟩, ⟨2, 2⟩, 1⟩ ∧
    PlayerState.dir ⟨PlayerDirection.Up, false, ⟨0, 0⟩, ⟨2, 2⟩, 1⟩ ≠ PlayerDirection.Stationary ∧
    ∃ ps',
      (([⟨⟨false, false, false, false⟩, 1, false, 0, 0, 3⟩] : List FrameInput).foldl
            (fun s i => frame i s)
            ⟨0, 150, "Weak", some ⟨PlayerDirection.Up, false, ⟨0, 0⟩, ⟨2, 2⟩, 1⟩,
              [(0, ⟨48, 0⟩)], 0⟩).player =
          some ps' ∧
        ps'.dir ≠ PlayerDirection.Stationary :=
  ⟨rfl, by simp,
    direction_never_stationary_again
      [⟨⟨false, false, false, false⟩, 1, false, 0, 0, 3⟩]
      ⟨0, 150, "Weak", some ⟨PlayerDirection.Up, false, ⟨0, 0⟩, ⟨2, 2⟩, 1⟩, [(0, ⟨48, 0⟩)], 0⟩
      ⟨PlayerDirection.Up, false, ⟨0, 0⟩, ⟨2, 2⟩, 1⟩ rfl (by simp)⟩

end PickinSticks
